import Mathlib

/-!
Shallow embedding of the iconshop repository (Angular + Three.js product
showcase).  The embedded code comes from two files:

  * `src/unnamed/part_000` — the routing table (`routes`);
  * `src/unnamed/part_001` — the main variant of `WebglViewerComponent`
    together with the `ThreeViewer` wrapper class;
  * `src/src/app/webgl-scene/webgl-viewer.component.ts` — the older variant,
    whose `loadMasterModel` differs from `loadModel` only in using a fixed
    path and a 20×20×20 fallback box.

Object identity (JavaScript reference semantics) is modelled with an explicit
heap: `Object3D` values live in a list and are addressed by their index, so
that "clone" can be distinguished from "alias" and mutation of one object can
be shown not to touch another.  Numeric fields are rationals; side effects
(loader invocations, `requestAnimationFrame`, disposals, …) are recorded in an
event trace.
-/

namespace IconShop

/-- A 3-component vector (`THREE.Vector3`, also used for scale and position
tuples `[number, number, number]`). -/
structure Vec3 where
  x : ℚ
  y : ℚ
  z : ℚ
deriving DecidableEq, Repr

/-- Euler angles (`THREE.Euler`), the `rotation` property of an `Object3D`. -/
structure Euler where
  ex : ℚ
  ey : ℚ
  ez : ℚ
deriving DecidableEq, Repr

/-- What kind of scene-graph object a heap cell holds.  `gltfScene` is a scene
returned by `GLTFLoader`; `boxMesh s` is a `THREE.Mesh` over
`BoxGeometry(s, s, s)` with a `MeshNormalMaterial` (the load-failure
fallback); the light kinds are produced by the `ThreeViewer` constructor. -/
inductive ObjKind where
  | gltfScene (path : String)
  | boxMesh (size : ℚ)
  | ambientLight
  | directionalLight
deriving DecidableEq, Repr

/-- A `THREE.Object3D`: the mutable state that the embedded code reads or
writes (scale, position, rotation) plus its kind. -/
structure Object3D where
  scale : Vec3
  position : Vec3
  rotation : Euler
  kind : ObjKind
deriving DecidableEq, Repr

/-- Embeds `Object3D.clone()`: a fresh object with the same state. -/
def Object3D.clone (o : Object3D) : Object3D := o

def defaultObj3D : Object3D :=
  { scale := ⟨1, 1, 1⟩, position := ⟨0, 0, 0⟩, rotation := ⟨0, 0, 0⟩,
    kind := .boxMesh 0 }

/-- The heap of scene-graph objects.  An object reference is an index into
`objs`; allocation appends. -/
structure Heap where
  objs : List Object3D
deriving DecidableEq, Repr

def Heap.getD (h : Heap) (i : Nat) : Object3D := h.objs.getD i defaultObj3D

def Heap.setObj (h : Heap) (i : Nat) (o : Object3D) : Heap := ⟨h.objs.set i o⟩

/-- Allocate a fresh object; returns the new heap and the reference. -/
def Heap.alloc (h : Heap) (o : Object3D) : Heap × Nat :=
  (⟨h.objs ++ [o]⟩, h.objs.length)

/-- Embeds `interface ModelConfig` of `part_001`. -/
structure ModelConfig where
  index : Nat
  displayName : String
  offer : String
  scale : Vec3
  pos : Vec3
  modelPath : String
deriving DecidableEq, Repr

/-! Routing table (`src/unnamed/part_000`). -/

/-- The two routed components. -/
inductive RouteComponent where
  | webglViewer
  | aboutUs
deriving DecidableEq, Repr

/-- One entry of the Angular `Routes` array. -/
structure Route where
  path : String
  component : RouteComponent
deriving DecidableEq, Repr

/-- Embeds `export const routes: Routes = [...]` from `src/unnamed/part_000`. -/
def routes : List Route :=
  [ { path := "", component := .webglViewer },
    { path := "about-us", component := .aboutUs } ]

/-! Side-effect trace. -/

/-- Observable side effects of the embedded code.  Events that belong to one
viewer carry the viewer's position in the `viewers` array. -/
inductive Event where
  | loadInvoked (path : String)
  | markForCheck
  | animateStarted
  | rafScheduled
  | updateCalled (i : Nat)
  | controlsUpdated (i : Nat)
  | modelRotated (i : Nat)
  | rendered (i : Nat)
  | frameCancelled (id : Nat)
  | controlsDisposed (i : Nat)
  | rendererDisposed (i : Nat)
  | domElementRemoved (i : Nat)
  | resizeListenerRemoved
deriving DecidableEq, Repr

def Event.isLoad : Event → Bool
  | .loadInvoked _ => true
  | _ => false

def Event.isRaf : Event → Bool
  | .rafScheduled => true
  | _ => false

def Event.isUpdateCall : Event → Bool
  | .updateCalled _ => true
  | _ => false

/-! Embedding of `class ThreeViewer` (`src/unnamed/part_001`, lines 21–130). -/

/-- Light added by `this.scene.add(new THREE.AmbientLight(0xffffff, 0.8))`. -/
def ambientLightObj : Object3D :=
  { scale := ⟨1, 1, 1⟩, position := ⟨0, 0, 0⟩, rotation := ⟨0, 0, 0⟩,
    kind := .ambientLight }

/-- The directional light, after `directionalLight.position.set(5, 10, 7.5)`. -/
def directionalLightObj : Object3D :=
  { scale := ⟨1, 1, 1⟩, position := ⟨5, 10, 7.5⟩, rotation := ⟨0, 0, 0⟩,
    kind := .directionalLight }

/-- State of one `ThreeViewer` instance.  `model` and `sceneChildren` hold
heap references; `hasControls` records whether `OrbitControls` was available
at construction; `rendererPresent`/`domAttached` model the renderer field and
whether its canvas is attached to the DOM. -/
structure ThreeViewer where
  config : ModelConfig
  model : Option Nat
  sceneChildren : List Nat
  hasControls : Bool
  rendererPresent : Bool
  domAttached : Bool
deriving DecidableEq, Repr

/-- The `ThreeViewer` constructor: creates scene/camera/renderer, attaches the
canvas, creates controls when `OrbitControls` is available, and adds the two
lights to the scene. -/
def ThreeViewer.create (config : ModelConfig) (orbitAvailable : Bool)
    (h : Heap) : ThreeViewer × Heap :=
  let (h1, ambId) := h.alloc ambientLightObj
  let (h2, dirId) := h1.alloc directionalLightObj
  ({ config := config, model := none, sceneChildren := [ambId, dirId],
     hasControls := orbitAvailable, rendererPresent := true,
     domAttached := true }, h2)

/-- Embeds `ThreeViewer.addModel(loadedModel)`: `if (!loadedModel) return;` then
clone the loaded model, apply the config's scale and position, store it in
`this.model` and add it to the scene. -/
def ThreeViewer.addModel (v : ThreeViewer) (h : Heap) (loadedModel : Option Nat) :
    ThreeViewer × Heap :=
  match loadedModel with
  | none => (v, h)
  | some mid =>
    let m := h.getD mid
    let c := { m.clone with scale := v.config.scale, position := v.config.pos }
    let (h2, cid) := h.alloc c
    ({ v with model := some cid, sceneChildren := v.sceneChildren ++ [cid] }, h2)

/-- Embeds `ThreeViewer.update()`: `controls.update()` when controls exist, then the
automatic rotation `this.model.rotation.y += 0.007` when a model is present,
then `renderer.render(scene, camera)`.  `i` identifies the viewer in the
event trace. -/
def ThreeViewer.update (v : ThreeViewer) (h : Heap) (i : Nat) :
    Heap × List Event :=
  let ctrlEvents := if v.hasControls then [Event.controlsUpdated i] else []
  let (h2, rotEvents) :=
    match v.model with
    | some mid =>
      let o := h.getD mid
      (h.setObj mid
        { o with rotation := { o.rotation with ey := o.rotation.ey + 0.007 } },
       [Event.modelRotated i])
    | none => (h, [])
  (h2, Event.updateCalled i :: (ctrlEvents ++ rotEvents ++ [Event.rendered i]))

/-- Embeds `ThreeViewer.dispose()`: dispose controls when present, dispose the
renderer and detach its canvas from the DOM when it has a parent. -/
def ThreeViewer.dispose (v : ThreeViewer) (i : Nat) : List Event :=
  (if v.hasControls then [Event.controlsDisposed i] else []) ++
  (if v.rendererPresent then
     Event.rendererDisposed i ::
       (if v.domAttached then [Event.domElementRemoved i] else [])
   else [])

/-! Model loading (`loadModel` in `part_001`, `loadMasterModel` in the
older variant) -/

/-- What the `GLTFLoader` reports for a given asset path: either the parsed
gltf whose `scene` is an `Object3D`, or a load error. -/
inductive LoadOutcome where
  | success (scene : Object3D)
  | failure
deriving DecidableEq, Repr

/-- The two ways a settled JavaScript promise can end. -/
inductive PromiseResult (α : Type) where
  | resolved (v : α)
  | rejected
deriving DecidableEq, Repr

/-- The environment: how the loader answers each path. -/
def LoadEnv : Type := String → LoadOutcome

/-- The fallback of `loadModel` (`part_001`): a `BoxGeometry(1, 1, 1)` mesh
with a `MeshNormalMaterial`. -/
def fallbackMeshSmall : Object3D :=
  { scale := ⟨1, 1, 1⟩, position := ⟨0, 0, 0⟩, rotation := ⟨0, 0, 0⟩,
    kind := .boxMesh 1 }

/-- The fallback of `loadMasterModel` (older variant): a
`BoxGeometry(20, 20, 20)` mesh. -/
def fallbackMeshLarge : Object3D :=
  { scale := ⟨1, 1, 1⟩, position := ⟨0, 0, 0⟩, rotation := ⟨0, 0, 0⟩,
    kind := .boxMesh 20 }

/-- Embeds `WebglViewerComponent.loadModel(path)` of `part_001`: on loader success
resolve with `gltf.scene`; on loader error resolve with the fallback box.
The promise executor never calls `reject`. -/
def loadModel (path : String) (env : LoadEnv) : PromiseResult Object3D :=
  match env path with
  | .success scene => .resolved scene
  | .failure => .resolved fallbackMeshSmall

/-- Embeds `GLB_MODEL_PATH` of the older variant. -/
def GLB_MODEL_PATH : String := "/glbfiles/googlelogo.glb"

/-- Embeds `WebglViewerComponent.loadMasterModel()` of the older variant: loads the
fixed `GLB_MODEL_PATH`, resolving with `gltf.scene` on success and with the
20×20×20 fallback box on error; `reject` is never called. -/
def loadMasterModel (env : LoadEnv) : PromiseResult Object3D :=
  match env GLB_MODEL_PATH with
  | .success scene => .resolved scene
  | .failure => .resolved fallbackMeshLarge

/-- The object a settled `loadModel`-style promise delivers to `await`.  The
`rejected` case never occurs for these promises. -/
def PromiseResult.valueD : PromiseResult Object3D → Object3D
  | .resolved v => v
  | .rejected => defaultObj3D

/-! Embedding of `WebglViewerComponent` (`src/unnamed/part_001`, lines 141–312). -/

def GLB_MODEL_PATH_G : String := "/glbfiles/googlelogo.glb"
def GLB_MODEL_PATH_EDGE : String := "/glbfiles/edge.glb"
def GLB_MODEL_PATH_OPER : String := "/glbfiles/opera.glb"

/-- Embeds `allModelConfigs`: 6 Google-logo configs, 6 Edge configs, 4 Opera
configs, built with `Array.from({length: n}, (_, i) => ...)`. -/
def allModelConfigs : List ModelConfig :=
  ((List.range 6).map fun i =>
    { index := 1 + i, displayName := s!"G logo {i + 1}",
      offer := s!"{30 - i}% Discount", scale := ⟨2, 2, 2⟩, pos := ⟨0, 0, 0⟩,
      modelPath := GLB_MODEL_PATH_G }) ++
  ((List.range 6).map fun i =>
    { index := 6 + i, displayName := s!"Edge logo {7 + i}",
      offer := s!"{10 + i}% Off", scale := ⟨2, 2, 2⟩, pos := ⟨0, 0, 0⟩,
      modelPath := GLB_MODEL_PATH_EDGE }) ++
  ((List.range 4).map fun i =>
    { index := 12 + i, displayName := s!"Opera {13 + i}",
      offer := s!"{10 + i}% Off", scale := ⟨1, 1, 1⟩, pos := ⟨0, 0, 0⟩,
      modelPath := GLB_MODEL_PATH_OPER })

/-- Component state together with the object heap. -/
structure World where
  heap : Heap
  viewers : List ThreeViewer
  animateId : Nat
  isLoaded : Bool
deriving DecidableEq, Repr

/-- The component's fields as initialised: `viewers = []`, `animateId = 0`,
`isLoaded = false`, and no objects allocated yet. -/
def initialWorld : World :=
  { heap := ⟨[]⟩, viewers := [], animateId := 0, isLoaded := false }

/-- Embeds `Array.from(new Set(...))`: distinct elements in first-occurrence order. -/
def dedupFirst (l : List String) : List String :=
  l.foldl (fun acc p => if p ∈ acc then acc else acc ++ [p]) []

/-- Allocate a list of loaded master models in the heap, returning their
references in order. -/
def allocAll : Heap → List Object3D → Heap × List Nat
  | h, [] => (h, [])
  | h, o :: os =>
    let p := h.alloc o
    let q := allocAll p.1 os
    (q.1, p.2 :: q.2)

/-- Step 4 of `ngAfterViewInit`: `this.viewers = this.allModelConfigs.map(...)`
— construct a `ThreeViewer` per config and, when `masterModels.get(path)` is
defined, add (a clone of) the master model to it. -/
def buildViewers : List ModelConfig → List (String × Nat) → Heap →
    List ThreeViewer × Heap
  | [], _, h => ([], h)
  | c :: cs, masters, h =>
    let p1 := ThreeViewer.create c true h
    let p2 :=
      match masters.lookup c.modelPath with
      | some mid => p1.1.addModel p1.2 (some mid)
      | none => p1
    let p3 := buildViewers cs masters p2.2
    (p2.1 :: p3.1, p3.2)

/-- Embeds `ngAfterViewInit` of `part_001`: dedup the model paths, call `loadModel`
once per unique path, build the `masterModels` map, guard on the number of
container elements (early return on shortfall), otherwise build one viewer
per config with a clone of its master model, set `isLoaded`, trigger change
detection and start the animation loop.  `numContainers` is the length of
`allRendererContainers`. -/
def ngAfterViewInit (numContainers : Nat) (env : LoadEnv) (w : World) :
    World × List Event :=
  let uniqueModelPaths := dedupFirst (allModelConfigs.map (·.modelPath))
  let loadEvents := uniqueModelPaths.map Event.loadInvoked
  let loadedModels := uniqueModelPaths.map fun p => (loadModel p env).valueD
  let pm := allocAll w.heap loadedModels
  let masterModels := uniqueModelPaths.zip pm.2
  if numContainers < allModelConfigs.length then
    ({ w with heap := pm.1 }, loadEvents)
  else
    let pv := buildViewers allModelConfigs masterModels pm.1
    ({ heap := pv.2, viewers := pv.1, animateId := w.animateId,
       isLoaded := true },
     loadEvents ++ [Event.markForCheck, Event.animateStarted])

/-- Embeds `this.viewers.forEach(viewer => viewer.update())`, threading the heap and
concatenating each viewer's events; `s` is the index of the first viewer. -/
def runUpdates : List ThreeViewer → Nat → Heap → Heap × List Event
  | [], _, h => (h, [])
  | v :: vs, i, h =>
    let (h1, e1) := v.update h i
    let (h2, e2) := runUpdates vs (i + 1) h1
    (h2, e1 ++ e2)

/-- The `animate` arrow function: store the id returned by
`requestAnimationFrame(this.animate)` in `this.animateId`, then update every
viewer.  `newFrameId` is the id the browser returns for the scheduled
frame. -/
def animate (w : World) (newFrameId : Nat) : World × List Event :=
  let w1 := { w with animateId := newFrameId }
  let (h, evs) := runUpdates w1.viewers 0 w1.heap
  ({ w1 with heap := h }, Event.rafScheduled :: evs)

/-- Embeds `this.viewers.forEach(viewer => viewer.dispose())`. -/
def disposeAll : List ThreeViewer → Nat → List Event
  | [], _ => []
  | v :: vs, i => v.dispose i ++ disposeAll vs (i + 1)

/-- Embeds `ngOnDestroy`: `cancelAnimationFrame` when `animateId` is truthy, dispose
every viewer, remove the window resize listener. -/
def ngOnDestroy (w : World) : List Event :=
  (if w.animateId ≠ 0 then [Event.frameCancelled w.animateId] else []) ++
  disposeAll w.viewers 0 ++
  [Event.resizeListenerRemoved]

/-! Derived descriptions of the initialization result.

`ngAfterViewInit` threads the heap through 16 viewer constructions; the
following definitions give a direct, non-threaded description of the result,
proved equal to the computation by the lemmas further down. -/

/-- The heap right after the master models have been allocated: one object
per unique model path, in first-occurrence order. -/
def initMastersHeap (env : LoadEnv) : Heap :=
  ⟨(dedupFirst (allModelConfigs.map (fun c => c.modelPath))).map
    (fun p => (loadModel p env).valueD)⟩

/-- The `masterModels` map built during init: each unique path paired with
the heap address of its master model. -/
def initMasterAssoc : List (String × Nat) :=
  (dedupFirst (allModelConfigs.map (fun c => c.modelPath))).zip
    (List.range' 0 (dedupFirst (allModelConfigs.map (fun c => c.modelPath))).length)

/-- The objects `buildViewers` appends to the heap, config by config: the two
lights of the viewer's scene followed by the clone of the config's master
model with the config's scale and position applied. -/
def builtObjs (masters : List (String × Nat)) (h : Heap) :
    List ModelConfig → List Object3D
  | [] => []
  | c :: cs =>
    ambientLightObj :: directionalLightObj ::
      { h.getD ((masters.lookup c.modelPath).getD 0) with
          scale := c.scale, position := c.pos } :: builtObjs masters h cs

/-- The model references of the viewers `buildViewers` constructs when the
first viewer's lights go to heap addresses `start`, `start + 1`. -/
def modelIds (start : Nat) : Nat → List (Option Nat)
  | 0 => []
  | n + 1 => some (start + 2) :: modelIds (start + 3) n

/-- Whether the master lookup for config `c` succeeds with an address below
`k`. -/
def lookupOkB (masters : List (String × Nat)) (k : Nat) (c : ModelConfig) :
    Bool :=
  match masters.lookup c.modelPath with
  | some mid => decide (mid < k)
  | none => false

/-! Concrete sample inputs, used to instantiate the theorems below. -/

/-- A sample gltf scene, as a loader could deliver it. -/
def sampleScene : Object3D :=
  { scale := ⟨1, 1, 1⟩, position := ⟨0, 0, 0⟩, rotation := ⟨0, 1, 0⟩,
    kind := .gltfScene "/glbfiles/googlelogo.glb" }

/-- A loader environment in which every load succeeds with `sampleScene`. -/
def envSucc : LoadEnv := fun _ => .success sampleScene

/-- A loader environment in which every load fails. -/
def envFail : LoadEnv := fun _ => .failure

/-- A one-object heap holding `sampleScene`. -/
def sampleHeap : Heap := ⟨[sampleScene]⟩

/-- A sample model config. -/
def sampleConfig : ModelConfig :=
  { index := 1, displayName := "G logo 1", offer := "30% Discount",
    scale := ⟨2, 2, 2⟩, pos := ⟨0, 0, 0⟩,
    modelPath := GLB_MODEL_PATH_G }

/-- A sample viewer whose model is the object at heap address 0. -/
def sampleViewer : ThreeViewer :=
  { config := sampleConfig, model := some 0, sceneChildren := [0],
    hasControls := true, rendererPresent := true, domAttached := true }

/-- A sample world with one viewer and a pending animation frame. -/
def sampleWorld : World :=
  { heap := sampleHeap, viewers := [sampleViewer], animateId := 1,
    isLoaded := true }

end IconShop

open IconShop

/-- C7: the routing table contains exactly 2 routes: the empty path mapped to
`WebglViewerComponent` and the path `about-us` mapped to `AboutUsComponent`. -/
theorem routes_exactly_two :
    routes.length = 2 ∧
    routes = [ { path := "", component := .webglViewer },
               { path := "about-us", component := .aboutUs } ] := by
  constructor <;> rfl

/-- C3: for a valid (non-null) loaded model, `addModel` stores and adds to
the viewer's scene a clone — a distinct object, whose scale and position are
set from the viewer's config — and every pre-existing heap object, the shared
master in particular, is left unchanged. -/
theorem addModel_stores_clone (v : ThreeViewer) (h : Heap) (mid : Nat)
    (hm : mid < h.objs.length) :
    ∃ cid,
      (v.addModel h (some mid)).1.model = some cid ∧
      cid ≠ mid ∧
      (v.addModel h (some mid)).2.getD cid =
        { h.getD mid with scale := v.config.scale, position := v.config.pos } ∧
      cid ∈ (v.addModel h (some mid)).1.sceneChildren ∧
      (∀ j, j < h.objs.length →
        (v.addModel h (some mid)).2.getD j = h.getD j) := by
  refine ⟨h.objs.length, rfl, Nat.ne_of_gt hm, ?_, ?_, ?_⟩
  · simp [ThreeViewer.addModel, Heap.alloc, Heap.getD, Object3D.clone,
      List.getD_eq_getElem?_getD, List.getElem?_append_right]
  · simp [ThreeViewer.addModel, Heap.alloc]
  · intro j hj
    simp [ThreeViewer.addModel, Heap.alloc, Heap.getD,
      List.getD_eq_getElem?_getD, List.getElem?_append, hj]

/-- C3 witness: instantiation at `sampleViewer`, `sampleHeap`, address 0. -/
theorem addModel_stores_clone_witness :
    0 < sampleHeap.objs.length ∧
    ∃ cid,
      (sampleViewer.addModel sampleHeap (some 0)).1.model = some cid ∧
      cid ≠ 0 ∧
      (sampleViewer.addModel sampleHeap (some 0)).2.getD cid =
        { sampleHeap.getD 0 with scale := sampleViewer.config.scale,
                                 position := sampleViewer.config.pos } ∧
      cid ∈ (sampleViewer.addModel sampleHeap (some 0)).1.sceneChildren ∧
      (∀ j, j < sampleHeap.objs.length →
        (sampleViewer.addModel sampleHeap (some 0)).2.getD j =
          sampleHeap.getD j) :=
  ⟨by decide, addModel_stores_clone sampleViewer sampleHeap 0 (by decide)⟩

/-- C8: calling `addModel` with a null/undefined argument is a no-op — the
viewer (in particular its `model` field, which stays `null`) and the heap,
hence the scene contents, are unchanged. -/
theorem addModel_null_noop (v : ThreeViewer) (h : Heap) (hv : v.model = none) :
    v.addModel h none = (v, h) ∧
    (v.addModel h none).1.model = none ∧
    (v.addModel h none).1.sceneChildren = v.sceneChildren :=
  ⟨rfl, hv, rfl⟩

/-- C8 witness: instantiation at a freshly constructed viewer (model `null`). -/
theorem addModel_null_noop_witness :
    ((ThreeViewer.create sampleConfig true ⟨[]⟩).1.model = none) ∧
    ((ThreeViewer.create sampleConfig true ⟨[]⟩).1.addModel sampleHeap none =
        ((ThreeViewer.create sampleConfig true ⟨[]⟩).1, sampleHeap) ∧
      ((ThreeViewer.create sampleConfig true ⟨[]⟩).1.addModel sampleHeap
          none).1.model = none ∧
      ((ThreeViewer.create sampleConfig true ⟨[]⟩).1.addModel sampleHeap
          none).1.sceneChildren =
        (ThreeViewer.create sampleConfig true ⟨[]⟩).1.sceneChildren) :=
  ⟨rfl, addModel_null_noop (ThreeViewer.create sampleConfig true ⟨[]⟩).1
      sampleHeap rfl⟩

/-- C5: when the viewer's model is non-null (and a live heap object), each
`update` adds exactly `0.007` to the model's rotation about the y axis and
leaves its x/z rotation, position and scale unchanged; when the model is
null, `update` mutates no object at all. -/
theorem update_rotates_y_only (v : ThreeViewer) (h : Heap) (i : Nat) :
    (∀ mid, v.model = some mid → mid < h.objs.length →
      ((v.update h i).1.getD mid).rotation.ey =
          (h.getD mid).rotation.ey + 0.007 ∧
      ((v.update h i).1.getD mid).rotation.ex = (h.getD mid).rotation.ex ∧
      ((v.update h i).1.getD mid).rotation.ez = (h.getD mid).rotation.ez ∧
      ((v.update h i).1.getD mid).position = (h.getD mid).position ∧
      ((v.update h i).1.getD mid).scale = (h.getD mid).scale) ∧
    (v.model = none → (v.update h i).1 = h) := by
  constructor
  · intro mid hm hlt
    simp [ThreeViewer.update, hm, Heap.setObj, Heap.getD,
      List.getD_eq_getElem?_getD, List.getElem?_set_self, hlt]
  · intro hm
    simp [ThreeViewer.update, hm]

/-- C5 witness: instantiation at `sampleViewer` (model at address 0) and at a
model-less viewer. -/
theorem update_rotates_y_only_witness :
    (sampleViewer.model = some 0 ∧ 0 < sampleHeap.objs.length ∧
      ((sampleViewer.update sampleHeap 0).1.getD 0).rotation.ey =
        (sampleHeap.getD 0).rotation.ey + 0.007 ∧
      ((sampleViewer.update sampleHeap 0).1.getD 0).position =
        (sampleHeap.getD 0).position ∧
      ((sampleViewer.update sampleHeap 0).1.getD 0).scale =
        (sampleHeap.getD 0).scale) ∧
    (({ sampleViewer with model := none } :
        ThreeViewer).update sampleHeap 0).1 = sampleHeap := by
  have h1 := (update_rotates_y_only sampleViewer sampleHeap 0).1 0 rfl
    (by decide)
  have h2 := (update_rotates_y_only
    ({ sampleViewer with model := none }) sampleHeap 0).2 rfl
  exact ⟨⟨rfl, by decide, h1.1, h1.2.2.2.1, h1.2.2.2.2⟩, h2⟩

/-- C2: for every path and loader behaviour, the promise built by `loadModel`
never rejects: on success it resolves with the loaded `gltf.scene`, on error
with the single fallback placeholder box mesh; the same holds for
`loadMasterModel` of the older variant (whose fallback box has size 20). -/
theorem loadModel_never_rejects (path : String) (env : LoadEnv) :
    loadModel path env ≠ PromiseResult.rejected ∧
    (∀ scene, env path = .success scene →
      loadModel path env = .resolved scene) ∧
    (env path = .failure → loadModel path env = .resolved fallbackMeshSmall) ∧
    loadMasterModel env ≠ PromiseResult.rejected ∧
    (∀ scene, env GLB_MODEL_PATH = .success scene →
      loadMasterModel env = .resolved scene) ∧
    (env GLB_MODEL_PATH = .failure →
      loadMasterModel env = .resolved fallbackMeshLarge) := by
  refine ⟨?_, ?_, ?_, ?_, ?_, ?_⟩
  · cases ho : env path <;> simp [loadModel, ho]
  · intro scene hs; simp [loadModel, hs]
  · intro hs; simp [loadModel, hs]
  · cases ho : env GLB_MODEL_PATH <;> simp [loadMasterModel, ho]
  · intro scene hs; simp [loadMasterModel, hs]
  · intro hs; simp [loadMasterModel, hs]

/-- Unfolding equation for `runUpdates` on a cons cell. -/
theorem runUpdates_cons (v : ThreeViewer) (vs : List ThreeViewer) (s : Nat)
    (h : Heap) :
    runUpdates (v :: vs) s h =
      ((runUpdates vs (s + 1) (v.update h s).1).1,
       (v.update h s).2 ++ (runUpdates vs (s + 1) (v.update h s).1).2) := rfl

/-- One `update` call emits exactly one `updateCalled` event and never
schedules an animation frame. -/
theorem update_trace_filters (v : ThreeViewer) (h : Heap) (i : Nat) :
    (v.update h i).2.filter Event.isUpdateCall = [Event.updateCalled i] ∧
    (v.update h i).2.filter Event.isRaf = [] := by
  cases hc : v.hasControls <;> cases hm : v.model <;>
    simp [ThreeViewer.update, hc, hm, Event.isUpdateCall, Event.isRaf]

/-- The `forEach` loop over the viewers calls `update` once per viewer, in
array order, and schedules no frame itself. -/
theorem runUpdates_trace (vs : List ThreeViewer) (s : Nat) (h : Heap) :
    (runUpdates vs s h).2.filter Event.isUpdateCall =
      (List.range' s vs.length).map Event.updateCalled ∧
    (runUpdates vs s h).2.filter Event.isRaf = [] := by
  induction vs generalizing s h with
  | nil => simp [runUpdates]
  | cons v vs ih =>
    rw [runUpdates_cons]
    constructor
    · simp only [List.filter_append, (update_trace_filters v h s).1,
        (ih (s + 1) (v.update h s).1).1]
      simp [List.range'_succ]
    · simp only [List.filter_append, (update_trace_filters v h s).2,
        (ih (s + 1) (v.update h s).1).2]
      simp

/-- C4: each invocation of the shared `animate` callback schedules exactly
one subsequent animation frame (whose id is stored in `animateId`) and calls
`update` exactly once on every element of the `viewers` array, in array
order, within that single callback. -/
theorem animate_ticks_all_viewers (w : World) (newFrameId : Nat) :
    (animate w newFrameId).2.filter Event.isRaf = [Event.rafScheduled] ∧
    (animate w newFrameId).2.filter Event.isUpdateCall =
      (List.range w.viewers.length).map Event.updateCalled ∧
    (∀ i, i < w.viewers.length →
      (animate w newFrameId).2.count (Event.updateCalled i) = 1) ∧
    (animate w newFrameId).1.animateId = newFrameId := by
  have hanim : (animate w newFrameId).2 =
      Event.rafScheduled :: (runUpdates w.viewers 0 w.heap).2 := rfl
  have htr := runUpdates_trace w.viewers 0 w.heap
  have hfu : (animate w newFrameId).2.filter Event.isUpdateCall =
      (List.range w.viewers.length).map Event.updateCalled := by
    rw [hanim, List.filter_cons]
    simpa [Event.isUpdateCall, List.range_eq_range'] using htr.1
  refine ⟨?_, hfu, ?_, rfl⟩
  · rw [hanim, List.filter_cons]
    simp [Event.isRaf, htr.2]
  · intro i hi
    have hcount : ((animate w newFrameId).2.filter
        Event.isUpdateCall).count (Event.updateCalled i) = 1 := by
      rw [hfu]
      refine List.count_eq_one_of_mem ?_ ?_
      · exact (List.nodup_range _).map (fun a b hab => by cases hab; rfl)
      · exact List.mem_map_of_mem _ (List.mem_range.mpr hi)
    rw [← hcount, List.count_filter]
    rfl

/-- C4 witness: instantiation at `sampleWorld` with frame id 7. -/
theorem animate_ticks_all_viewers_witness :
    (animate sampleWorld 7).2.filter Event.isRaf = [Event.rafScheduled] ∧
    (animate sampleWorld 7).2.filter Event.isUpdateCall =
      (List.range sampleWorld.viewers.length).map Event.updateCalled ∧
    0 < sampleWorld.viewers.length ∧
    (animate sampleWorld 7).2.count (Event.updateCalled 0) = 1 ∧
    (animate sampleWorld 7).1.animateId = 7 :=
  ⟨(animate_ticks_all_viewers sampleWorld 7).1,
   (animate_ticks_all_viewers sampleWorld 7).2.1,
   by decide,
   (animate_ticks_all_viewers sampleWorld 7).2.2.1 0 (by decide),
   (animate_ticks_all_viewers sampleWorld 7).2.2.2⟩

/-- Every event of viewer `i`'s `dispose` occurs in the `forEach` dispose
loop over the viewers. -/
theorem mem_disposeAll (vs : List ThreeViewer) :
    ∀ (s i : Nat) (hi : i < vs.length) (e : Event),
      e ∈ (vs.get ⟨i, hi⟩).dispose (s + i) → e ∈ disposeAll vs s := by
  induction vs with
  | nil => intro s i hi; exact absurd hi (by simp)
  | cons v vs ih =>
    intro s i hi e he
    cases i with
    | zero =>
      exact List.mem_append_left _ (by simpa using he)
    | succ i =>
      refine List.mem_append_right _ ?_
      exact ih (s + 1) i (by simpa using Nat.lt_of_succ_lt_succ hi) e
        (by
          have : s + 1 + i = s + (i + 1) := by omega
          rw [this]
          simpa using he)

/-- C6: `ngOnDestroy` cancels the pending animation frame (when one is
pending), calls `dispose` on every viewer in the array — which disposes its
controls when present and its renderer when present — and removes the window
resize listener. -/
theorem ngOnDestroy_releases_resources (w : World) :
    (w.animateId ≠ 0 → Event.frameCancelled w.animateId ∈ ngOnDestroy w) ∧
    (∀ i, ∀ hi : i < w.viewers.length,
      ((w.viewers.get ⟨i, hi⟩).hasControls = true →
        Event.controlsDisposed i ∈ ngOnDestroy w) ∧
      ((w.viewers.get ⟨i, hi⟩).rendererPresent = true →
        Event.rendererDisposed i ∈ ngOnDestroy w)) ∧
    Event.resizeListenerRemoved ∈ ngOnDestroy w := by
  refine ⟨?_, ?_, ?_⟩
  · intro hid
    exact List.mem_append_left _ (List.mem_append_left _ (by simp [hid]))
  · intro i hi
    constructor
    · intro hc
      simp only [List.get_eq_getElem] at hc
      refine List.mem_append_left _ (List.mem_append_right _ ?_)
      refine mem_disposeAll w.viewers 0 i hi _ ?_
      simp [ThreeViewer.dispose, hc]
    · intro hr
      simp only [List.get_eq_getElem] at hr
      refine List.mem_append_left _ (List.mem_append_right _ ?_)
      refine mem_disposeAll w.viewers 0 i hi _ ?_
      simp [ThreeViewer.dispose, hr]
  · exact List.mem_append_right _ (by simp)

/-- C6 witness: instantiation at `sampleWorld` (one viewer with controls and
renderer, a pending frame with id 1). -/
theorem ngOnDestroy_releases_resources_witness :
    Event.frameCancelled 1 ∈ ngOnDestroy sampleWorld ∧
    Event.controlsDisposed 0 ∈ ngOnDestroy sampleWorld ∧
    Event.rendererDisposed 0 ∈ ngOnDestroy sampleWorld ∧
    Event.resizeListenerRemoved ∈ ngOnDestroy sampleWorld :=
  ⟨(ngOnDestroy_releases_resources sampleWorld).1 (by decide),
   ((ngOnDestroy_releases_resources sampleWorld).2.1 0 (by decide)).1 rfl,
   ((ngOnDestroy_releases_resources sampleWorld).2.1 0 (by decide)).2 rfl,
   (ngOnDestroy_releases_resources sampleWorld).2.2⟩

/-! Helper lemmas characterizing the heap-threaded initialization. -/

/-- Reading `getD` across an append, left side. -/
theorem getD_append_of_lt {α : Type} (l l2 : List α) (n : Nat) (d : α)
    (hn : n < l.length) : (l ++ l2).getD n d = l.getD n d := by
  simp [List.getD_eq_getElem?_getD, List.getElem?_append, hn]

/-- Reading `getD` across an append, right side. -/
theorem getD_append_len_add {α : Type} (l l2 : List α) (k : Nat) (d : α) :
    (l ++ l2).getD (l.length + k) d = l2.getD k d := by
  simp [List.getD_eq_getElem?_getD, List.getElem?_append_right]

/-- Appending to a heap does not change the objects already in it. -/
theorem heap_getD_append (h : Heap) (l2 : List Object3D) (mid : Nat)
    (hm : mid < h.objs.length) :
    (⟨h.objs ++ l2⟩ : Heap).getD mid = h.getD mid := by
  simp only [Heap.getD]
  exact getD_append_of_lt _ _ _ _ hm

/-- The function `allocAll` appends the given objects to the heap. -/
theorem allocAll_fst : ∀ (os : List Object3D) (h : Heap),
    (allocAll h os).1 = ⟨h.objs ++ os⟩ := by
  intro os
  induction os with
  | nil => intro h; simp [allocAll]
  | cons o os ih =>
    intro h
    simp only [allocAll, Heap.alloc, ih]
    simp

/-- The function `allocAll` returns the consecutive addresses of the new objects. -/
theorem allocAll_snd : ∀ (os : List Object3D) (h : Heap),
    (allocAll h os).2 = List.range' h.objs.length os.length := by
  intro os
  induction os with
  | nil => intro h; simp [allocAll]
  | cons o os ih =>
    intro h
    simp only [allocAll, Heap.alloc, ih]
    simp [List.range'_succ]

/-- Closed form of the `ThreeViewer` constructor. -/
theorem create_eq (c : ModelConfig) (b : Bool) (h : Heap) :
    ThreeViewer.create c b h =
      ({ config := c, model := none,
         sceneChildren := [h.objs.length, h.objs.length + 1],
         hasControls := b, rendererPresent := true, domAttached := true },
       ⟨h.objs ++ [ambientLightObj, directionalLightObj]⟩) := by
  simp [ThreeViewer.create, Heap.alloc]

/-- Closed form of `addModel` on a non-null reference. -/
theorem addModel_some_eq (v : ThreeViewer) (h : Heap) (mid : Nat) :
    v.addModel h (some mid) =
      ({ v with
          model := some h.objs.length,
          sceneChildren := v.sceneChildren ++ [h.objs.length] },
       ⟨h.objs ++ [{ h.getD mid with
                     scale := v.config.scale,
                     position := v.config.pos }]⟩) := rfl

/-- A successful bounded lookup stays successful for a larger bound. -/
theorem lookupOkB_mono (masters : List (String × Nat)) (k k2 : Nat)
    (hk : k ≤ k2) (c : ModelConfig) (hc : lookupOkB masters k c = true) :
    lookupOkB masters k2 c = true := by
  simp only [lookupOkB] at hc ⊢
  cases hlk : masters.lookup c.modelPath with
  | some mid =>
    rw [hlk] at hc
    simp only [decide_eq_true_eq] at hc ⊢
    omega
  | none => rw [hlk] at hc; exact absurd hc (by simp)

/-- A successful bounded lookup names an address below the bound. -/
theorem lookupOkB_elim (masters : List (String × Nat)) (k : Nat)
    (c : ModelConfig) (hc : lookupOkB masters k c = true) :
    ∃ mid, masters.lookup c.modelPath = some mid ∧ mid < k := by
  simp only [lookupOkB] at hc
  cases hlk : masters.lookup c.modelPath with
  | some mid =>
    rw [hlk] at hc
    exact ⟨mid, rfl, by simpa using hc⟩
  | none => rw [hlk] at hc; exact absurd hc (by simp)

/-- The block `builtObjs` only looks at the heap through the master addresses. -/
theorem builtObjs_congr (masters : List (String × Nat)) (h h2 : Heap) :
    ∀ cs : List ModelConfig,
      (∀ c ∈ cs, h2.getD ((masters.lookup c.modelPath).getD 0) =
        h.getD ((masters.lookup c.modelPath).getD 0)) →
      builtObjs masters h2 cs = builtObjs masters h cs := by
  intro cs
  induction cs with
  | nil => intro _; rfl
  | cons c cs ih =>
    intro hh
    simp only [builtObjs]
    rw [hh c (List.mem_cons_self c cs),
      ih (fun c2 hc2 => hh c2 (List.mem_cons_of_mem c hc2))]

/-- The object `builtObjs` places at offset `3 j + 2` is the clone built for
the `j`-th config. -/
theorem builtObjs_getD (masters : List (String × Nat)) (h : Heap) :
    ∀ (cs : List ModelConfig) (j : Nat) (hj : j < cs.length) (d : Object3D),
      (builtObjs masters h cs).getD (3 * j + 2) d =
        { h.getD ((masters.lookup ((cs.get ⟨j, hj⟩).modelPath)).getD 0) with
            scale := (cs.get ⟨j, hj⟩).scale,
            position := (cs.get ⟨j, hj⟩).pos } := by
  intro cs
  induction cs with
  | nil => intro j hj; exact absurd hj (by simp)
  | cons c cs ih =>
    intro j hj d
    cases j with
    | zero => simp [builtObjs]
    | succ j =>
      have harith : 3 * (j + 1) + 2 = 3 * j + 2 + 1 + 1 + 1 := by omega
      simp only [builtObjs, harith, List.getD_cons_succ]
      simpa using ih j (Nat.lt_of_succ_lt_succ hj) d

/-- Every entry of `modelIds` is a `some`. -/
theorem modelIds_isSome : ∀ (n s : Nat) (x : Option Nat),
    x ∈ modelIds s n → x.isSome = true := by
  intro n
  induction n with
  | zero => intro s x hx; simp [modelIds] at hx
  | succ n ih =>
    intro s x hx
    simp only [modelIds, List.mem_cons] at hx
    rcases hx with rfl | hx
    · rfl
    · exact ih (s + 3) x hx

/-- Full characterization of `buildViewers` when every config's master
lookup succeeds within the heap: the viewers carry the configs in order,
their model references are the consecutive clone addresses, and the heap
grows by exactly the `builtObjs` block. -/
theorem buildViewers_spec (masters : List (String × Nat)) :
    ∀ (cs : List ModelConfig) (h : Heap),
      (∀ c ∈ cs, lookupOkB masters h.objs.length c = true) →
      (buildViewers cs masters h).1.map (fun v => v.config) = cs ∧
      (buildViewers cs masters h).1.map (fun v => v.model) =
        modelIds h.objs.length cs.length ∧
      (buildViewers cs masters h).2.objs =
        h.objs ++ builtObjs masters h cs := by
  intro cs
  induction cs with
  | nil => intro h _; simp [buildViewers, builtObjs, modelIds]
  | cons c cs ih =>
    intro h hok
    obtain ⟨mid, hlk, hmid⟩ :=
      lookupOkB_elim masters h.objs.length c (hok c (List.mem_cons_self c cs))
    have hstep : buildViewers (c :: cs) masters h =
        (({ config := c, model := some (h.objs.length + 2),
            sceneChildren := [h.objs.length, h.objs.length + 1,
              h.objs.length + 2],
            hasControls := true, rendererPresent := true,
            domAttached := true } : ThreeViewer) ::
          (buildViewers cs masters
            ⟨h.objs ++ [ambientLightObj, directionalLightObj,
              { h.getD mid with scale := c.scale, position := c.pos }]⟩).1,
         (buildViewers cs masters
            ⟨h.objs ++ [ambientLightObj, directionalLightObj,
              { h.getD mid with scale := c.scale, position := c.pos }]⟩).2) := by
      simp only [buildViewers, create_eq, hlk, addModel_some_eq]
      rw [heap_getD_append h [ambientLightObj, directionalLightObj] mid hmid]
      simp [List.append_assoc]
    have hok2 : ∀ c2 ∈ cs, lookupOkB masters
        (⟨h.objs ++ [ambientLightObj, directionalLightObj,
          { h.getD mid with scale := c.scale, position := c.pos }]⟩ :
            Heap).objs.length c2 = true := by
      intro c2 hc2
      refine lookupOkB_mono masters h.objs.length _ ?_ c2
        (hok c2 (List.mem_cons_of_mem c hc2))
      simp
    obtain ⟨ihc, ihm, iho⟩ := ih _ hok2
    refine ⟨?_, ?_, ?_⟩
    · rw [hstep]
      simp only [List.map_cons, ihc]
    · rw [hstep]
      simp only [List.map_cons, ihm, List.length_cons, modelIds]
      simp [Nat.add_assoc]
    · rw [hstep]
      have hcongr : builtObjs masters
          (⟨h.objs ++ [ambientLightObj, directionalLightObj,
            { h.getD mid with scale := c.scale, position := c.pos }]⟩ :
              Heap) cs = builtObjs masters h cs := by
        refine builtObjs_congr masters h _ cs ?_
        intro c2 hc2
        obtain ⟨mid2, hlk2, hmid2⟩ := lookupOkB_elim masters h.objs.length c2
          (hok c2 (List.mem_cons_of_mem c hc2))
        rw [hlk2]
        exact heap_getD_append h _ mid2 hmid2
      rw [iho, hcongr]
      simp only [builtObjs, hlk, Option.getD_some]
      simp

/-- On the successful path, `ngAfterViewInit` from a fresh component is the
`buildViewers` run over the master heap, together with the init trace. -/
theorem init_success_eq (n : Nat) (env : LoadEnv)
    (hn : allModelConfigs.length ≤ n) :
    ngAfterViewInit n env initialWorld =
      ({ heap := (buildViewers allModelConfigs initMasterAssoc
            (initMastersHeap env)).2,
         viewers := (buildViewers allModelConfigs initMasterAssoc
            (initMastersHeap env)).1,
         animateId := 0, isLoaded := true },
       (dedupFirst (allModelConfigs.map (fun c => c.modelPath))).map
           Event.loadInvoked ++
         [Event.markForCheck, Event.animateStarted]) := by
  have hH : (allocAll initialWorld.heap
      ((dedupFirst (allModelConfigs.map (fun c => c.modelPath))).map
        (fun p => (loadModel p env).valueD))).1 = initMastersHeap env := by
    rw [allocAll_fst]
    simp [initialWorld, initMastersHeap]
  have hM : (dedupFirst (allModelConfigs.map (fun c => c.modelPath))).zip
      (allocAll initialWorld.heap
        ((dedupFirst (allModelConfigs.map (fun c => c.modelPath))).map
          (fun p => (loadModel p env).valueD))).2 = initMasterAssoc := by
    rw [allocAll_snd]
    simp [initialWorld, initMasterAssoc]
  simp only [ngAfterViewInit]
  split
  · exact absurd (by assumption) (Nat.not_lt.mpr hn)
  · rw [hM, hH]
    rfl

/-- The distinct model paths, in first-occurrence order. -/
theorem dedup_paths_eq :
    dedupFirst (allModelConfigs.map (fun c => c.modelPath)) =
      [GLB_MODEL_PATH_G, GLB_MODEL_PATH_EDGE, GLB_MODEL_PATH_OPER] := by
  decide

/-- The master heap holds 3 objects. -/
theorem initMastersHeap_length (env : LoadEnv) :
    (initMastersHeap env).objs.length = 3 := by
  simp [initMastersHeap, dedup_paths_eq]

/-- Every config's master lookup succeeds within the master heap. -/
theorem initMasterAssoc_ok :
    ∀ c ∈ allModelConfigs, lookupOkB initMasterAssoc 3 c = true := by
  decide

/-- For every config, the master heap resolves the config's path to the
object the loader delivered for that path. -/
theorem initMastersHeap_resolves (env : LoadEnv) :
    ∀ c ∈ allModelConfigs,
      (initMastersHeap env).getD
          ((initMasterAssoc.lookup c.modelPath).getD 0) =
        (loadModel c.modelPath env).valueD := by
  intro c hc
  have hpath : c.modelPath = GLB_MODEL_PATH_G ∨
      c.modelPath = GLB_MODEL_PATH_EDGE ∨
      c.modelPath = GLB_MODEL_PATH_OPER := by
    revert c
    decide
  have hassoc : initMasterAssoc = [(GLB_MODEL_PATH_G, 0),
      (GLB_MODEL_PATH_EDGE, 1), (GLB_MODEL_PATH_OPER, 2)] := by
    decide
  rcases hpath with hp | hp | hp <;>
    · rw [hp, hassoc]
      simp only [initMastersHeap, dedup_paths_eq]
      rfl

set_option maxHeartbeats 1000000 in
/-- C9: when fewer DOM containers are available than model configs,
`ngAfterViewInit` returns early — the `viewers` array is untouched (so it
stays empty), `isLoaded` and `animateId` are unchanged, and the animation
loop is never started. -/
theorem init_guard_aborts (n : Nat) (env : LoadEnv) (w : World)
    (hn : n < allModelConfigs.length) :
    (ngAfterViewInit n env w).1.viewers = w.viewers ∧
    (ngAfterViewInit n env w).1.isLoaded = w.isLoaded ∧
    (ngAfterViewInit n env w).1.animateId = w.animateId ∧
    Event.animateStarted ∉ (ngAfterViewInit n env w).2 := by
  have hmem : Event.animateStarted ∉
      List.map Event.loadInvoked
        (dedupFirst (List.map (fun x => x.modelPath) allModelConfigs)) := by
    decide
  refine ⟨?_, ?_, ?_, ?_⟩ <;>
    · simp only [ngAfterViewInit]
      split
      · first
          | rfl
          | exact hmem
      · exact absurd hn (by assumption)

set_option maxHeartbeats 1000000 in
/-- C9 witness: instantiation with 0 containers on a fresh component — the
viewers array stays empty and `isLoaded` stays false. -/
theorem init_guard_aborts_witness :
    0 < allModelConfigs.length ∧
    ((ngAfterViewInit 0 envFail initialWorld).1.viewers =
        initialWorld.viewers ∧
      (ngAfterViewInit 0 envFail initialWorld).1.isLoaded =
        initialWorld.isLoaded ∧
      (ngAfterViewInit 0 envFail initialWorld).1.animateId =
        initialWorld.animateId ∧
      Event.animateStarted ∉ (ngAfterViewInit 0 envFail initialWorld).2) :=
  ⟨by decide, init_guard_aborts 0 envFail initialWorld (by decide)⟩

set_option maxHeartbeats 1000000 in
/-- C10: after a successful initialization the `viewers` array holds exactly
one viewer per entry of `allModelConfigs`, in the same order, every viewer's
`model` field is non-null, and `isLoaded` is true. -/
theorem init_viewers_match_configs (n : Nat) (env : LoadEnv)
    (hn : allModelConfigs.length ≤ n) :
    (ngAfterViewInit n env initialWorld).1.viewers.map (fun v => v.config) =
      allModelConfigs ∧
    ((ngAfterViewInit n env initialWorld).1.viewers.all fun v =>
      v.model.isSome) = true ∧
    (ngAfterViewInit n env initialWorld).1.isLoaded = true := by
  have hok : ∀ c ∈ allModelConfigs,
      lookupOkB initMasterAssoc (initMastersHeap env).objs.length c =
        true := by
    rw [initMastersHeap_length]
    exact initMasterAssoc_ok
  obtain ⟨hc, hm, _⟩ :=
    buildViewers_spec initMasterAssoc allModelConfigs (initMastersHeap env) hok
  rw [init_success_eq n env hn]
  refine ⟨hc, ?_, rfl⟩
  rw [List.all_eq_true]
  intro v hv
  refine modelIds_isSome allModelConfigs.length
    (initMastersHeap env).objs.length v.model ?_
  rw [← hm]
  exact List.mem_map_of_mem (fun v => v.model) hv

set_option maxHeartbeats 1000000 in
/-- C10 witness: instantiation with 16 containers in the all-success
environment. -/
theorem init_viewers_match_configs_witness :
    allModelConfigs.length ≤ 16 ∧
    ((ngAfterViewInit 16 envSucc initialWorld).1.viewers.map
        (fun v => v.config) = allModelConfigs ∧
      ((ngAfterViewInit 16 envSucc initialWorld).1.viewers.all fun v =>
        v.model.isSome) = true ∧
      (ngAfterViewInit 16 envSucc initialWorld).1.isLoaded = true) :=
  ⟨by decide, init_viewers_match_configs 16 envSucc (by decide)⟩

set_option maxHeartbeats 1000000 in
/-- C1: during `ngAfterViewInit` each distinct model path of
`allModelConfigs` is loaded exactly once — the trace holds one `loadInvoked`
event per unique path, 3 of them in total, not one per viewer — and each
viewer ends up holding a clone of the single master model for its config's
path: viewer `j` references heap address `3 j + 5`, whose object is the
loader's object for that path with the config's scale and position
applied. -/
theorem init_loads_each_path_once (n : Nat) (env : LoadEnv)
    (hn : allModelConfigs.length ≤ n) :
    (ngAfterViewInit n env initialWorld).2.filter Event.isLoad =
      [Event.loadInvoked GLB_MODEL_PATH_G,
       Event.loadInvoked GLB_MODEL_PATH_EDGE,
       Event.loadInvoked GLB_MODEL_PATH_OPER] ∧
    (dedupFirst (allModelConfigs.map (fun c => c.modelPath))).length ≤ 3 ∧
    (ngAfterViewInit n env initialWorld).1.viewers.map (fun v => v.model) =
      modelIds 3 allModelConfigs.length ∧
    (∀ j, ∀ hj : j < allModelConfigs.length,
      (ngAfterViewInit n env initialWorld).1.heap.getD (3 * j + 5) =
        { (loadModel ((allModelConfigs.get ⟨j, hj⟩).modelPath) env).valueD
            with
            scale := (allModelConfigs.get ⟨j, hj⟩).scale,
            position := (allModelConfigs.get ⟨j, hj⟩).pos }) := by
  have hok : ∀ c ∈ allModelConfigs,
      lookupOkB initMasterAssoc (initMastersHeap env).objs.length c =
        true := by
    rw [initMastersHeap_length]
    exact initMasterAssoc_ok
  obtain ⟨_, hm, ho⟩ :=
    buildViewers_spec initMasterAssoc allModelConfigs (initMastersHeap env) hok
  rw [init_success_eq n env hn]
  refine ⟨?_, ?_, ?_, ?_⟩
  · rw [dedup_paths_eq]
    rfl
  · rw [dedup_paths_eq]
    decide
  · rw [hm, initMastersHeap_length]
  · intro j hj
    have hmem := List.get_mem allModelConfigs j hj
    show (buildViewers allModelConfigs initMasterAssoc
        (initMastersHeap env)).2.objs.getD (3 * j + 5) defaultObj3D = _
    have hidx : 3 * j + 5 =
        (initMastersHeap env).objs.length + (3 * j + 2) := by
      rw [initMastersHeap_length]
      omega
    rw [ho, hidx, getD_append_len_add,
      builtObjs_getD initMasterAssoc (initMastersHeap env)
        allModelConfigs j hj defaultObj3D,
      initMastersHeap_resolves env (allModelConfigs.get ⟨j, hj⟩) hmem]

set_option maxHeartbeats 1000000 in
/-- C1 witness: instantiation with 16 containers in the all-failure
environment (every master is then the fallback box). -/
theorem init_loads_each_path_once_witness :
    allModelConfigs.length ≤ 16 ∧
    ((ngAfterViewInit 16 envFail initialWorld).2.filter Event.isLoad =
      [Event.loadInvoked GLB_MODEL_PATH_G,
       Event.loadInvoked GLB_MODEL_PATH_EDGE,
       Event.loadInvoked GLB_MODEL_PATH_OPER] ∧
    (dedupFirst (allModelConfigs.map (fun c => c.modelPath))).length ≤ 3 ∧
    (ngAfterViewInit 16 envFail initialWorld).1.viewers.map
        (fun v => v.model) = modelIds 3 allModelConfigs.length ∧
    (∀ j, ∀ hj : j < allModelConfigs.length,
      (ngAfterViewInit 16 envFail initialWorld).1.heap.getD (3 * j + 5) =
        { (loadModel ((allModelConfigs.get ⟨j, hj⟩).modelPath)
              envFail).valueD with
            scale := (allModelConfigs.get ⟨j, hj⟩).scale,
            position := (allModelConfigs.get ⟨j, hj⟩).pos })) :=
  ⟨by decide, init_loads_each_path_once 16 envFail (by decide)⟩

/-- C2 witness: instantiation at a concrete path in the all-success and the
all-failure environments. -/
theorem loadModel_never_rejects_witness :
    loadModel "/glbfiles/edge.glb" envSucc = .resolved sampleScene ∧
    loadModel "/glbfiles/edge.glb" envFail = .resolved fallbackMeshSmall ∧
    loadMasterModel envFail = .resolved fallbackMeshLarge :=
  ⟨(loadModel_never_rejects "/glbfiles/edge.glb" envSucc).2.1 sampleScene rfl,
   (loadModel_never_rejects "/glbfiles/edge.glb" envFail).2.2.1 rfl,
   (loadModel_never_rejects "/glbfiles/edge.glb" envFail).2.2.2.2.2 rfl⟩
